import Mathlib

/-!
Shallow embedding of `src/src/jvm.cpp`, a bridge between native code and an
embedded Java virtual machine reached through the JNI C interface.  The
embedding covers: the type-descriptor algebra (`Jvm::Class`), method-signature
string construction (`Jvm::findMethod`), constructor and static-field
resolution, the exception-translation check (`Jvm::check`), the
invocation/field-read entry points that funnel through that check, the
runtime-creation singleton (`Jvm::create`), the scoped thread-attachment guard
(`JNI::Env`), and global-reference deletion (`Jvm::deleteGlobalRef`).

Opaque JNI handles (`jobject`, `jclass`, `jmethodID`, `jfieldID`) are modelled
as `Nat` tokens, with `Option Nat` where NULL is significant.  The JNI runtime
itself is external to the translation unit and is modelled as an oracle
(function-valued parameters describing what each native entry point returns),
so theorems quantify over every possible behaviour of the embedded runtime.
`jfloat`/`jdouble` results are carried as opaque bit-pattern tokens (`Nat`);
no floating-point arithmetic occurs in the source.
-/

namespace Bilingua

/-- `Jvm::Class` (jvm.cpp lines 208-237): a type descriptor holding the
runtime-level encoded name and whether it is a primitive ("native") type.
The two-argument constructor's second parameter defaults to `true` in the
header (the primitive constants at lines 190-198 pass only the code letter,
while `Class::named` passes `false` explicitly, line 204). -/
structure Class where
  name : String
  native : Bool
deriving DecidableEq

/-- `Jvm::Class::named` (line 202-205): a non-primitive descriptor. -/
def Class.named (name : String) : Class :=
  ⟨name, false⟩

/-- Primitive constant `Jvm::Class::VOID` (line 190). -/
def Class.VOID : Class := ⟨"V", true⟩

/-- Primitive constant `Jvm::Class::BOOLEAN` (line 191). -/
def Class.BOOLEAN : Class := ⟨"Z", true⟩

/-- Primitive constant `Jvm::Class::BYTE` (line 192). -/
def Class.BYTE : Class := ⟨"B", true⟩

/-- Primitive constant `Jvm::Class::CHAR` (line 193). -/
def Class.CHAR : Class := ⟨"C", true⟩

/-- Primitive constant `Jvm::Class::SHORT` (line 194). -/
def Class.SHORT : Class := ⟨"S", true⟩

/-- Primitive constant `Jvm::Class::INT` (line 195). -/
def Class.INT : Class := ⟨"I", true⟩

/-- Primitive constant `Jvm::Class::LONG` (line 196). -/
def Class.LONG : Class := ⟨"J", true⟩

/-- Primitive constant `Jvm::Class::FLAOT` (line 197; the typo is the
source's). -/
def Class.FLAOT : Class := ⟨"F", true⟩

/-- Primitive constant `Jvm::Class::DOUBLE` (line 198). -/
def Class.DOUBLE : Class := ⟨"D", true⟩

/-- Constant `Jvm::Class::STRING` (line 199). -/
def Class.STRING : Class := Class.named "java/lang/String"

/-- `Jvm::Class::arrayOf` (lines 216-219): prefix one `[` marker, keeping the
`native` flag. -/
def Class.arrayOf (c : Class) : Class :=
  ⟨"[" ++ c.name, c.native⟩

/-- `Jvm::Class::signature` (lines 234-237): the call-signature fragment. -/
def Class.signature (c : Class) : String :=
  if c.native then c.name else "L" ++ c.name ++ ";"

/-- The signature string built inside the private `Jvm::findMethod`
(lines 448-454): `(` then each argument's fragment appended in order via the
`foreach` loop, then `)` and the return type's fragment. -/
def methodSignatureString (argTypes : List Class) (returnType : Class) : String :=
  (argTypes.foldl (fun acc t => acc ++ t.signature) "(") ++ ")" ++ returnType.signature

/-- Per-thread JNIEnv exception state: `pending = some ref` when an exception
whose managed object is `ref` is pending on the thread, `none` otherwise. -/
structure EnvState where
  pending : Option Nat
deriving DecidableEq

/-- Native JNI exception operations issued by `Jvm::check`, recorded as a
trace (`ExceptionCheck`, `ExceptionOccurred`, `ExceptionClear`,
`ExceptionDescribe`). -/
inductive JniOp where
  | exceptionCheck
  | exceptionOccurred
  | exceptionClear
  | exceptionDescribe
deriving DecidableEq

/-- How `Jvm::check` (lines 707-721) finishes: return normally, throw the
C++ `Throwable` whose `object` field holds the `ExceptionOccurred` result, or
die in `LOG(FATAL)`. -/
inductive CheckOutcome where
  | normal
  | thrown (ref : Option Nat)
  | fatal
deriving DecidableEq

/-- `Jvm::check` (lines 707-721), with `exceptions` the flag stored by the
constructor at line 401.  `ExceptionCheck` gates everything; in abort mode the
pending exception is described and the process dies; in translate mode
`ExceptionOccurred` captures the pending object, then `ExceptionClear` resets
the state, then the wrapper is thrown.  The result carries the final
`EnvState` and the trace of native exception calls issued. -/
def Jvm.check (exceptions : Bool) (s : EnvState) :
    CheckOutcome × EnvState × List JniOp :=
  if s.pending.isSome then
    if !exceptions then
      (CheckOutcome.fatal, s, [JniOp.exceptionCheck, JniOp.exceptionDescribe])
    else
      let captured := s.pending
      (CheckOutcome.thrown captured, ⟨none⟩,
        [JniOp.exceptionCheck, JniOp.exceptionOccurred, JniOp.exceptionClear])
  else
    (CheckOutcome.normal, s, [JniOp.exceptionCheck])

/-- The `Jvm` facade's per-instance data (constructor at lines 401-402):
the runtime handle, the requested interface version, and the
exception-translation policy flag. -/
structure Jvm where
  jvm : Option Nat
  version : Int
  exceptions : Bool
deriving DecidableEq

/-- `Jvm::Constructor` (lines 135-140): owning descriptor plus `jmethodID`. -/
structure Constructor where
  clazz : Class
  id : Nat
deriving DecidableEq

/-- `Jvm::Method` (lines 182-187): owning descriptor plus `jmethodID`. -/
structure Method where
  clazz : Class
  id : Nat
deriving DecidableEq

/-- `Jvm::Field` (lines 240-245): owning descriptor plus `jfieldID`. -/
structure Field where
  clazz : Class
  id : Nat
deriving DecidableEq

/-- What a boundary entry point delivers to its caller: the decoded native
value, a thrown translate-mode wrapper, or abort-mode process death. -/
inductive Outcome (α : Type) where
  | result (v : α)
  | thrown (ref : Option Nat)
  | fatal
deriving DecidableEq

/-- The common tail of every invocation/field-read specialization: the native
call has produced value `p.1` and post-call env state `p.2`; `check(env)` runs
before the value is returned, and a throw or fatal inside `check` preempts the
return. -/
def gateReturn {α : Type} (exceptions : Bool) (p : α × EnvState) :
    Outcome α × EnvState :=
  match Jvm.check exceptions p.2 with
  | (CheckOutcome.normal, s2, _) => (Outcome.result p.1, s2)
  | (CheckOutcome.thrown ref, s2, _) => (Outcome.thrown ref, s2)
  | (CheckOutcome.fatal, s2, _) => (Outcome.fatal, s2)

/-- The JNI runtime behind the boundary calls, as an oracle.  Handles are
`Nat`; receivers and returned object references are `Option Nat` (NULL is
`none`); `va_list` argument packs are opaque `Nat` tokens; each call may
update the thread's pending-exception state arbitrarily.  `findClass` models
`Jvm::findClass` (lines 429-436) resolving a descriptor to a `jclass` handle
(its not-found CHECK failure aborts before any call and is outside these
claims). -/
structure Native where
  findClass : Class → Nat
  newObjectV : Nat → Nat → Nat → EnvState → Option Nat × EnvState
  callVoidMethodV : Option Nat → Nat → Nat → EnvState → Unit × EnvState
  callObjectMethodV : Option Nat → Nat → Nat → EnvState → Option Nat × EnvState
  callBooleanMethodV : Option Nat → Nat → Nat → EnvState → Bool × EnvState
  callCharMethodV : Option Nat → Nat → Nat → EnvState → Nat × EnvState
  callShortMethodV : Option Nat → Nat → Nat → EnvState → Int × EnvState
  callIntMethodV : Option Nat → Nat → Nat → EnvState → Int × EnvState
  callLongMethodV : Option Nat → Nat → Nat → EnvState → Int × EnvState
  callFloatMethodV : Option Nat → Nat → Nat → EnvState → Nat × EnvState
  callDoubleMethodV : Option Nat → Nat → Nat → EnvState → Nat × EnvState
  callStaticVoidMethodV : Nat → Nat → Nat → EnvState → Unit × EnvState
  callStaticObjectMethodV : Nat → Nat → Nat → EnvState → Option Nat × EnvState
  callStaticBooleanMethodV : Nat → Nat → Nat → EnvState → Bool × EnvState
  callStaticCharMethodV : Nat → Nat → Nat → EnvState → Nat × EnvState
  callStaticShortMethodV : Nat → Nat → Nat → EnvState → Int × EnvState
  callStaticIntMethodV : Nat → Nat → Nat → EnvState → Int × EnvState
  callStaticLongMethodV : Nat → Nat → Nat → EnvState → Int × EnvState
  callStaticFloatMethodV : Nat → Nat → Nat → EnvState → Nat × EnvState
  callStaticDoubleMethodV : Nat → Nat → Nat → EnvState → Nat × EnvState
  getStaticObjectField : Nat → Nat → EnvState → Option Nat × EnvState
  getStaticBooleanField : Nat → Nat → EnvState → Bool × EnvState
  getStaticCharField : Nat → Nat → EnvState → Nat × EnvState
  getStaticShortField : Nat → Nat → EnvState → Int × EnvState
  getStaticIntField : Nat → Nat → EnvState → Int × EnvState
  getStaticLongField : Nat → Nat → EnvState → Int × EnvState
  getStaticFloatField : Nat → Nat → EnvState → Nat × EnvState
  getStaticDoubleField : Nat → Nat → EnvState → Nat × EnvState

/-- `Jvm::invoke(const Constructor&, ...)` (lines 309-318): `NewObjectV` on
the resolved class and constructor id, then `check(env)`, then return. -/
def Jvm.invokeCtor (jvm : Jvm) (n : Native) (ctor : Constructor)
    (args : Nat) (s : EnvState) : Outcome (Option Nat) × EnvState :=
  gateReturn jvm.exceptions (n.newObjectV (n.findClass ctor.clazz) ctor.id args s)

/-- `Jvm::invokeV<void>` (lines 475-484). -/
def Jvm.invokeVVoid (jvm : Jvm) (n : Native) (receiver : Option Nat)
    (id args : Nat) (s : EnvState) : Outcome Unit × EnvState :=
  gateReturn jvm.exceptions (n.callVoidMethodV receiver id args s)

/-- `Jvm::invokeV<jobject>` (lines 487-497). -/
def Jvm.invokeVObject (jvm : Jvm) (n : Native) (receiver : Option Nat)
    (id args : Nat) (s : EnvState) : Outcome (Option Nat) × EnvState :=
  gateReturn jvm.exceptions (n.callObjectMethodV receiver id args s)

/-- `Jvm::invokeV<bool>` (lines 500-510). -/
def Jvm.invokeVBool (jvm : Jvm) (n : Native) (receiver : Option Nat)
    (id args : Nat) (s : EnvState) : Outcome Bool × EnvState :=
  gateReturn jvm.exceptions (n.callBooleanMethodV receiver id args s)

/-- `Jvm::invokeV<char>` (lines 513-523). -/
def Jvm.invokeVChar (jvm : Jvm) (n : Native) (receiver : Option Nat)
    (id args : Nat) (s : EnvState) : Outcome Nat × EnvState :=
  gateReturn jvm.exceptions (n.callCharMethodV receiver id args s)

/-- `Jvm::invokeV<short>` (lines 526-536). -/
def Jvm.invokeVShort (jvm : Jvm) (n : Native) (receiver : Option Nat)
    (id args : Nat) (s : EnvState) : Outcome Int × EnvState :=
  gateReturn jvm.exceptions (n.callShortMethodV receiver id args s)

/-- `Jvm::invokeV<int>` (lines 539-549). -/
def Jvm.invokeVInt (jvm : Jvm) (n : Native) (receiver : Option Nat)
    (id args : Nat) (s : EnvState) : Outcome Int × EnvState :=
  gateReturn jvm.exceptions (n.callIntMethodV receiver id args s)

/-- `Jvm::invokeV<long>` (lines 552-562). -/
def Jvm.invokeVLong (jvm : Jvm) (n : Native) (receiver : Option Nat)
    (id args : Nat) (s : EnvState) : Outcome Int × EnvState :=
  gateReturn jvm.exceptions (n.callLongMethodV receiver id args s)

/-- `Jvm::invokeV<float>` (lines 565-575). -/
def Jvm.invokeVFloat (jvm : Jvm) (n : Native) (receiver : Option Nat)
    (id args : Nat) (s : EnvState) : Outcome Nat × EnvState :=
  gateReturn jvm.exceptions (n.callFloatMethodV receiver id args s)

/-- `Jvm::invokeV<double>` (lines 578-588). -/
def Jvm.invokeVDouble (jvm : Jvm) (n : Native) (receiver : Option Nat)
    (id args : Nat) (s : EnvState) : Outcome Nat × EnvState :=
  gateReturn jvm.exceptions (n.callDoubleMethodV receiver id args s)

/-- `Jvm::invokeStaticV<void>` (lines 591-600). -/
def Jvm.invokeStaticVVoid (jvm : Jvm) (n : Native) (receiver : Class)
    (id args : Nat) (s : EnvState) : Outcome Unit × EnvState :=
  gateReturn jvm.exceptions (n.callStaticVoidMethodV (n.findClass receiver) id args s)

/-- `Jvm::invokeStaticV<jobject>` (lines 603-613). -/
def Jvm.invokeStaticVObject (jvm : Jvm) (n : Native) (receiver : Class)
    (id args : Nat) (s : EnvState) : Outcome (Option Nat) × EnvState :=
  gateReturn jvm.exceptions (n.callStaticObjectMethodV (n.findClass receiver) id args s)

/-- `Jvm::invokeStaticV<bool>` (lines 616-626). -/
def Jvm.invokeStaticVBool (jvm : Jvm) (n : Native) (receiver : Class)
    (id args : Nat) (s : EnvState) : Outcome Bool × EnvState :=
  gateReturn jvm.exceptions (n.callStaticBooleanMethodV (n.findClass receiver) id args s)

/-- `Jvm::invokeStaticV<char>` (lines 629-639). -/
def Jvm.invokeStaticVChar (jvm : Jvm) (n : Native) (receiver : Class)
    (id args : Nat) (s : EnvState) : Outcome Nat × EnvState :=
  gateReturn jvm.exceptions (n.callStaticCharMethodV (n.findClass receiver) id args s)

/-- `Jvm::invokeStaticV<short>` (lines 642-652). -/
def Jvm.invokeStaticVShort (jvm : Jvm) (n : Native) (receiver : Class)
    (id args : Nat) (s : EnvState) : Outcome Int × EnvState :=
  gateReturn jvm.exceptions (n.callStaticShortMethodV (n.findClass receiver) id args s)

/-- `Jvm::invokeStaticV<int>` (lines 655-665). -/
def Jvm.invokeStaticVInt (jvm : Jvm) (n : Native) (receiver : Class)
    (id args : Nat) (s : EnvState) : Outcome Int × EnvState :=
  gateReturn jvm.exceptions (n.callStaticIntMethodV (n.findClass receiver) id args s)

/-- `Jvm::invokeStaticV<long>` (lines 668-678). -/
def Jvm.invokeStaticVLong (jvm : Jvm) (n : Native) (receiver : Class)
    (id args : Nat) (s : EnvState) : Outcome Int × EnvState :=
  gateReturn jvm.exceptions (n.callStaticLongMethodV (n.findClass receiver) id args s)

/-- `Jvm::invokeStaticV<float>` (lines 681-691). -/
def Jvm.invokeStaticVFloat (jvm : Jvm) (n : Native) (receiver : Class)
    (id args : Nat) (s : EnvState) : Outcome Nat × EnvState :=
  gateReturn jvm.exceptions (n.callStaticFloatMethodV (n.findClass receiver) id args s)

/-- `Jvm::invokeStaticV<double>` (lines 694-704). -/
def Jvm.invokeStaticVDouble (jvm : Jvm) (n : Native) (receiver : Class)
    (id args : Nat) (s : EnvState) : Outcome Nat × EnvState :=
  gateReturn jvm.exceptions (n.callStaticDoubleMethodV (n.findClass receiver) id args s)

/-- `Jvm::getStaticField<jobject>` (lines 321-328). -/
def Jvm.getStaticFieldObject (jvm : Jvm) (n : Native) (f : Field)
    (s : EnvState) : Outcome (Option Nat) × EnvState :=
  gateReturn jvm.exceptions (n.getStaticObjectField (n.findClass f.clazz) f.id s)

/-- `Jvm::getStaticField<bool>` (lines 331-338). -/
def Jvm.getStaticFieldBool (jvm : Jvm) (n : Native) (f : Field)
    (s : EnvState) : Outcome Bool × EnvState :=
  gateReturn jvm.exceptions (n.getStaticBooleanField (n.findClass f.clazz) f.id s)

/-- `Jvm::getStaticField<char>` (lines 341-348). -/
def Jvm.getStaticFieldChar (jvm : Jvm) (n : Native) (f : Field)
    (s : EnvState) : Outcome Nat × EnvState :=
  gateReturn jvm.exceptions (n.getStaticCharField (n.findClass f.clazz) f.id s)

/-- `Jvm::getStaticField<short>` (lines 351-358). -/
def Jvm.getStaticFieldShort (jvm : Jvm) (n : Native) (f : Field)
    (s : EnvState) : Outcome Int × EnvState :=
  gateReturn jvm.exceptions (n.getStaticShortField (n.findClass f.clazz) f.id s)

/-- `Jvm::getStaticField<int>` (lines 361-368). -/
def Jvm.getStaticFieldInt (jvm : Jvm) (n : Native) (f : Field)
    (s : EnvState) : Outcome Int × EnvState :=
  gateReturn jvm.exceptions (n.getStaticIntField (n.findClass f.clazz) f.id s)

/-- `Jvm::getStaticField<long>` (lines 371-378). -/
def Jvm.getStaticFieldLong (jvm : Jvm) (n : Native) (f : Field)
    (s : EnvState) : Outcome Int × EnvState :=
  gateReturn jvm.exceptions (n.getStaticLongField (n.findClass f.clazz) f.id s)

/-- `Jvm::getStaticField<float>` (lines 381-388). -/
def Jvm.getStaticFieldFloat (jvm : Jvm) (n : Native) (f : Field)
    (s : EnvState) : Outcome Nat × EnvState :=
  gateReturn jvm.exceptions (n.getStaticFloatField (n.findClass f.clazz) f.id s)

/-- `Jvm::getStaticField<double>` (lines 391-398). -/
def Jvm.getStaticFieldDouble (jvm : Jvm) (n : Native) (f : Field)
    (s : EnvState) : Outcome Nat × EnvState :=
  gateReturn jvm.exceptions (n.getStaticDoubleField (n.findClass f.clazz) f.id s)

/-- The property every boundary entry point must satisfy when the native call
leaves a pending exception: the decoded result is never delivered; in
translate mode a wrapper is thrown and the pending state ends cleared; in
abort mode the process dies. -/
def neverResult {α : Type} (exceptions : Bool) (out : Outcome α × EnvState) : Prop :=
  (∀ v, out.1 ≠ Outcome.result v) ∧
  (exceptions = true → (∃ ref, out.1 = Outcome.thrown ref) ∧ out.2.pending = none) ∧
  (exceptions = false → out.1 = Outcome.fatal)

/-- stout's `Try<T>`: either a value or an `Error` carrying a message.  A
`Try` is a returned result, not a thrown exception. -/
inductive Try (α : Type) where
  | ok (value : α)
  | error (message : String)
deriving DecidableEq

/-- `JNI_OK` (jni.h). -/
def JNI_OK : Int := 0

/-- `JNI_ERR` (jni.h): the generic error code, the only one
`Jvm::create` tests for (line 94). -/
def JNI_ERR : Int := -1

/-- `JNI_EDETACHED` (jni.h): thread detached from the VM. -/
def JNI_EDETACHED : Int := -2

/-- `JNI_EVERSION` (jni.h): requested version unsupported.  Like every JNI
failure code it is negative, but it is distinct from `JNI_ERR`. -/
def JNI_EVERSION : Int := -3

/-- One call to `Jvm::create` (lines 68-105) together with the response the
external `JNI_CreateJavaVM` entry point gives on this call: the returned
result code and the produced `JavaVM*` handle (`none` for NULL, which is what
the JNI runtime leaves on failure). -/
structure CreateCall where
  options : List String
  version : Int
  exceptions : Bool
  nativeResult : Int × Option Nat
deriving DecidableEq

/-- The process-wide mutable state read and written by `Jvm::create`:
`Jvm::instance` (line 59) and whether the `deleter` atexit hook has been
registered (line 102). -/
structure CreateState where
  inst : Option Jvm
  atexitRegistered : Bool
deriving DecidableEq

/-- `Jvm::create` (lines 68-105): refuse if the singleton already exists;
otherwise run `JNI_CreateJavaVM`, fail only when its result equals `JNI_ERR`,
and on every other result install the singleton (wrapping whatever handle the
native call produced), register the atexit deleter, and return it. -/
def Jvm.create (c : CreateCall) (s : CreateState) : Try Jvm × CreateState :=
  if s.inst.isSome then
    (Try.error "Java Virtual Machine already created", s)
  else
    let result := c.nativeResult.1
    let jvm := c.nativeResult.2
    if result = JNI_ERR then
      (Try.error "Failed to create JVM!", s)
    else
      let i : Jvm := ⟨jvm, c.version, c.exceptions⟩
      (Try.ok i, ⟨some i, true⟩)

/-- Running a sequence of `Jvm::create` calls in order, collecting each
call's returned `Try` value and threading the process state. -/
def runCreates (calls : List CreateCall) (s : CreateState) :
    List (Try Jvm) × CreateState :=
  match calls with
  | [] => ([], s)
  | c :: rest =>
    let r := Jvm.create c s
    let rs := runCreates rest r.2
    (r.1 :: rs.1, rs.2)

/-- The process state before any creation: `Jvm::instance == NULL`, no
atexit hook. -/
def initialCreateState : CreateState := ⟨none, false⟩

/-- Per-thread attachment state of the calling thread: whether it is attached
to the VM, and the thread's `JNIEnv*` handle when attached. -/
structure ThreadState where
  attached : Bool
  envHandle : Nat
deriving DecidableEq

/-- Native attach/detach operations issued by the `JNI::Env` guard, recorded
as a trace. -/
inductive ThreadOp where
  | getEnv
  | attachCurrentThread
  | attachCurrentThreadAsDaemon
  | detachCurrentThread
deriving DecidableEq

/-- The `JNI::Env` guard object: the acquired `JNIEnv*` and the `detach` flag
recording whether this guard performed the attach (lines 30-31). -/
structure Env where
  env : Option Nat
  detach : Bool
deriving DecidableEq

/-- `JNI::Env::Env(bool daemon)` (lines 30-47): `GetEnv` first; it yields
`JNI_OK` and the thread's env when already attached, `JNI_EDETACHED` and NULL
otherwise.  Only on `JNI_EDETACHED` is `AttachCurrentThread` (or the daemon
variant) issued and `detach` set. -/
def Env.construct (daemon : Bool) (t : ThreadState) :
    Env × ThreadState × List ThreadOp :=
  let result : Int := if t.attached then JNI_OK else JNI_EDETACHED
  let env0 : Option Nat := if t.attached then some t.envHandle else none
  if result = JNI_EDETACHED then
    let t2 : ThreadState := { t with attached := true }
    (⟨some t2.envHandle, true⟩, t2,
      [ThreadOp.getEnv,
       if daemon then ThreadOp.attachCurrentThreadAsDaemon
       else ThreadOp.attachCurrentThread])
  else
    (⟨env0, false⟩, t, [ThreadOp.getEnv])

/-- `JNI::Env::~Env()` (lines 50-55): `DetachCurrentThread` only when the
`detach` flag is set. -/
def Env.destruct (e : Env) (t : ThreadState) : ThreadState × List ThreadOp :=
  if e.detach then
    ({ t with attached := false }, [ThreadOp.detachCurrentThread])
  else
    (t, [])

/-- Native global-reference operations, recorded as a trace. -/
inductive RefOp where
  | deleteGlobalRef (ref : Nat)
deriving DecidableEq

/-- `Jvm::deleteGlobalRef` (lines 420-426): `DeleteGlobalRef` is issued only
when the object reference is non-NULL.  The function always returns normally;
the trace lists the native delete calls issued. -/
def Jvm.deleteGlobalRef (object : Option Nat) : List RefOp :=
  match object with
  | some ref => [RefOp.deleteGlobalRef ref]
  | none => []

/-- What the runtime is asked for by the private `Jvm::findMethod`
(lines 439-472): the owning descriptor (resolved through `findClass`), the
member name, the encoded signature string, and whether the static lookup
entry point was used. -/
structure MethodLookup where
  clazz : Class
  name : String
  signature : String
  isStatic : Bool
deriving DecidableEq

/-- The private `Jvm::findMethod` (lines 439-472): build the signature string
and query `GetStaticMethodID`/`GetMethodID` (the oracle) with it.  Returns
the resolved `jmethodID` together with the lookup actually issued. -/
def Jvm.findMethodId (oracle : MethodLookup → Nat) (clazz : Class)
    (name : String) (returnType : Class) (argTypes : List Class)
    (isStatic : Bool) : Nat × MethodLookup :=
  let lookup : MethodLookup :=
    ⟨clazz, name, methodSignatureString argTypes returnType, isStatic⟩
  (oracle lookup, lookup)

/-- `Jvm::ConstructorFinder` (lines 123-132): owning descriptor plus the
accumulated parameter descriptors. -/
structure ConstructorFinder where
  clazz : Class
  parameters : List Class
deriving DecidableEq

/-- `Jvm::ConstructorFinder::parameter` (lines 127-132): push one more
parameter descriptor. -/
def ConstructorFinder.parameter (f : ConstructorFinder) (clazz : Class) :
    ConstructorFinder :=
  { f with parameters := f.parameters ++ [clazz] }

/-- `Jvm::findConstructor` (lines 255-265): resolve through the private
`findMethod` with name `<init>`, VOID return type, the finder's parameters,
and non-static lookup; pair the finder's owning descriptor with the resolved
id.  The issued lookup is returned alongside. -/
def Jvm.findConstructor (oracle : MethodLookup → Nat)
    (finder : ConstructorFinder) : Constructor × MethodLookup :=
  let r := Jvm.findMethodId oracle finder.clazz "<init>" Class.VOID
    finder.parameters false
  (⟨finder.clazz, r.1⟩, r.2)

/-- What the runtime is asked for by `Jvm::findStaticField`: the class the
field is looked up on (resolved through `findClass`), the field name, and the
field-type signature string handed to `GetStaticFieldID`. -/
structure FieldLookup where
  clazz : Class
  name : String
  signature : String
deriving DecidableEq

/-- `Jvm::findStaticField` (lines 294-306): one descriptor argument serves
both as the class looked up through `findClass` and, via its `signature()`,
as the field-type signature string passed to `GetStaticFieldID`.  Returns the
`Field` handle and the lookup actually issued.  (The subsequent `check(env)`
at line 303 is the exception funnel modelled by `Jvm.check`.) -/
def Jvm.findStaticField (oracle : FieldLookup → Nat) (clazz : Class)
    (name : String) : Field × FieldLookup :=
  let lookup : FieldLookup := ⟨clazz, name, clazz.signature⟩
  (⟨clazz, oracle lookup⟩, lookup)

/-- A thread state with a pending exception whose managed object is ref 5. -/
def pendingEnv : EnvState := ⟨some 5⟩

/-- A concrete JNI runtime used to exercise the boundary entry points: every
native call leaves a pending exception (object ref 5) behind. -/
def throwingNative : Native where
  findClass := fun _ => 1
  newObjectV := fun _ _ _ _ => (some 2, pendingEnv)
  callVoidMethodV := fun _ _ _ _ => ((), pendingEnv)
  callObjectMethodV := fun _ _ _ _ => (some 2, pendingEnv)
  callBooleanMethodV := fun _ _ _ _ => (true, pendingEnv)
  callCharMethodV := fun _ _ _ _ => (65, pendingEnv)
  callShortMethodV := fun _ _ _ _ => (7, pendingEnv)
  callIntMethodV := fun _ _ _ _ => (7, pendingEnv)
  callLongMethodV := fun _ _ _ _ => (7, pendingEnv)
  callFloatMethodV := fun _ _ _ _ => (7, pendingEnv)
  callDoubleMethodV := fun _ _ _ _ => (7, pendingEnv)
  callStaticVoidMethodV := fun _ _ _ _ => ((), pendingEnv)
  callStaticObjectMethodV := fun _ _ _ _ => (some 2, pendingEnv)
  callStaticBooleanMethodV := fun _ _ _ _ => (true, pendingEnv)
  callStaticCharMethodV := fun _ _ _ _ => (65, pendingEnv)
  callStaticShortMethodV := fun _ _ _ _ => (7, pendingEnv)
  callStaticIntMethodV := fun _ _ _ _ => (7, pendingEnv)
  callStaticLongMethodV := fun _ _ _ _ => (7, pendingEnv)
  callStaticFloatMethodV := fun _ _ _ _ => (7, pendingEnv)
  callStaticDoubleMethodV := fun _ _ _ _ => (7, pendingEnv)
  getStaticObjectField := fun _ _ _ => (some 2, pendingEnv)
  getStaticBooleanField := fun _ _ _ => (true, pendingEnv)
  getStaticCharField := fun _ _ _ => (65, pendingEnv)
  getStaticShortField := fun _ _ _ => (7, pendingEnv)
  getStaticIntField := fun _ _ _ => (7, pendingEnv)
  getStaticLongField := fun _ _ _ => (7, pendingEnv)
  getStaticFloatField := fun _ _ _ => (7, pendingEnv)
  getStaticDoubleField := fun _ _ _ => (7, pendingEnv)

/-- A concrete first creation call: default options, JNI version 1.6
(0x00010006 = 65542), translate mode, and a native runtime that succeeds
(`JNI_OK` with handle 1). -/
def cW1 : CreateCall := ⟨[], 65542, true, (0, some 1)⟩

/-- A concrete later creation call with different argument values, whose
native runtime would also succeed were it reached. -/
def cW2 : CreateCall := ⟨["-Xcheck:jni"], 65542, false, (0, some 3)⟩

/-- A creation call on which `JNI_CreateJavaVM` fails with `JNI_EVERSION`
(-3) and therefore leaves the `JavaVM*` handle NULL. -/
def cBug : CreateCall := ⟨[], 65542, true, (JNI_EVERSION, none)⟩

theorem string_foldl_append (l : List String) (a : String) :
    l.foldl (fun x y => x ++ y) a = a ++ String.join l := by
  induction l generalizing a with
  | nil => simp [String.join]
  | cons x xs ih =>
    have hj : String.join (x :: xs) = x ++ String.join xs := by
      show (x :: xs).foldl (fun x y => x ++ y) "" = x ++ String.join xs
      show xs.foldl (fun x y => x ++ y) ("" ++ x) = x ++ String.join xs
      rw [String.empty_append, ih x]
    show xs.foldl (fun x y => x ++ y) (a ++ x) = a ++ String.join (x :: xs)
    rw [ih (a ++ x), hj, String.append_assoc]

/-- C3: building a method signature with parameter descriptors [INT, STRING]
and return type BOOLEAN yields "(ILjava/lang/String;)Z"; with zero parameters
and return type VOID it yields "()V"; and in general the encoded string is
"(" followed by each parameter's signature fragment in order, then ")", then
the return type's signature fragment. -/
theorem method_signature_encoding :
    methodSignatureString [Class.INT, Class.STRING] Class.BOOLEAN =
      "(ILjava/lang/String;)Z" ∧
    methodSignatureString [] Class.VOID = "()V" ∧
    ∀ (args : List Class) (ret : Class),
      methodSignatureString args ret =
        "(" ++ String.join (args.map Class.signature) ++ ")" ++ ret.signature := by
  refine ⟨by decide, by decide, fun args ret => ?_⟩
  show (args.foldl (fun acc t => acc ++ t.signature) "(") ++ ")" ++ ret.signature =
    "(" ++ String.join (args.map Class.signature) ++ ")" ++ ret.signature
  rw [← List.foldl_map Class.signature (fun x y => x ++ y) args "(",
    string_foldl_append, String.append_assoc, String.append_assoc]

/-- C4 counterexample: the double-array-of-string descriptor's signature
fragment is not the JNI form "[[Ljava/lang/String;" — the code wraps the
already-bracketed name in `L...;`. -/
theorem array_signature_claim_counterexample :
    (Class.STRING.arrayOf.arrayOf).signature ≠ "[[Ljava/lang/String;" := by
  decide

/-- C4 amended: INT.arrayOf().signatureFragment() = "[I", while
STRING.arrayOf().arrayOf().signatureFragment() = "L[[java/lang/String;"
(the non-primitive `L<name>;` wrapping applies to the bracket-prefixed name);
arrayOf prefixes one array marker and preserves the primitive flag. -/
theorem array_signature_amended :
    (Class.INT.arrayOf).signature = "[I" ∧
    (Class.STRING.arrayOf.arrayOf).signature = "L[[java/lang/String;" ∧
    ∀ c : Class, (c.arrayOf).name = "[" ++ c.name ∧ (c.arrayOf).native = c.native := by
  exact ⟨by decide, by decide, fun c => ⟨rfl, rfl⟩⟩

/-- C1: with a pending exception, translate mode captures the offending
object via ExceptionOccurred before ExceptionClear (the trace order), clears
exactly once, and throws a wrapper holding that object; abort mode describes
the exception and dies fatally without clearing or recovering. -/
theorem check_translate_abort_modes (s : EnvState) (r : Nat)
    (h : s.pending = some r) :
    (Jvm.check true s =
      (CheckOutcome.thrown (some r), ⟨none⟩,
        [JniOp.exceptionCheck, JniOp.exceptionOccurred, JniOp.exceptionClear]) ∧
     (Jvm.check true s).2.2.count JniOp.exceptionClear = 1 ∧
     (Jvm.check true s).2.1.pending = none) ∧
    (Jvm.check false s =
      (CheckOutcome.fatal, s, [JniOp.exceptionCheck, JniOp.exceptionDescribe]) ∧
     (Jvm.check false s).2.2.count JniOp.exceptionClear = 0) := by
  obtain ⟨p⟩ := s
  obtain rfl : p = some r := h
  exact ⟨⟨rfl, rfl, rfl⟩, rfl, rfl⟩

/-- Concrete run of `Jvm::check` with exception object 5 pending, in both
policy modes. -/
theorem check_translate_abort_modes_witness :
    Jvm.check true ⟨some 5⟩ =
      (CheckOutcome.thrown (some 5), ⟨none⟩,
        [JniOp.exceptionCheck, JniOp.exceptionOccurred, JniOp.exceptionClear]) ∧
    Jvm.check false ⟨some 5⟩ =
      (CheckOutcome.fatal, ⟨some 5⟩,
        [JniOp.exceptionCheck, JniOp.exceptionDescribe]) :=
  ⟨(check_translate_abort_modes ⟨some 5⟩ 5 rfl).1.1,
   (check_translate_abort_modes ⟨some 5⟩ 5 rfl).2.1⟩

/-- C8: deleting a NULL global reference issues no native delete call and
returns normally; a non-NULL reference issues exactly the one delete. -/
theorem deleteGlobalRef_null_noop :
    Jvm.deleteGlobalRef none = [] ∧
    ∀ r, Jvm.deleteGlobalRef (some r) = [RefOp.deleteGlobalRef r] :=
  ⟨rfl, fun _ => rfl⟩

/-- C9: findConstructor resolves through the member lookup with the fixed
synthetic name `<init>`, the VOID return descriptor, the finder's
accumulated parameters in order, and non-static resolution, and pairs the
finder's owning type with the resolved identifier. -/
theorem findConstructor_specialization (oracle : MethodLookup → Nat)
    (finder : ConstructorFinder) :
    (Jvm.findConstructor oracle finder).2 =
      ⟨finder.clazz, "<init>",
        methodSignatureString finder.parameters Class.VOID, false⟩ ∧
    (Jvm.findConstructor oracle finder).1 =
      ⟨finder.clazz, oracle ⟨finder.clazz, "<init>",
        methodSignatureString finder.parameters Class.VOID, false⟩⟩ ∧
    ∀ (f : ConstructorFinder) (c : Class),
      (f.parameter c).parameters = f.parameters ++ [c] ∧
      (f.parameter c).clazz = f.clazz :=
  ⟨rfl, rfl, fun _ _ => ⟨rfl, rfl⟩⟩

/-- C10: findStaticField uses its single descriptor argument both as the
owning class of the lookup and, through signature(), as the field-type
signature string handed to the runtime; the issued lookup's signature is
exactly the owning descriptor's own signature fragment. -/
theorem findStaticField_owner_is_type (oracle : FieldLookup → Nat)
    (clazz : Class) (name : String) :
    (Jvm.findStaticField oracle clazz name).2 = ⟨clazz, name, clazz.signature⟩ ∧
    (Jvm.findStaticField oracle clazz name).2.signature =
      ((Jvm.findStaticField oracle clazz name).2.clazz).signature ∧
    (Jvm.findStaticField oracle clazz name).1 =
      ⟨clazz, oracle ⟨clazz, name, clazz.signature⟩⟩ :=
  ⟨rfl, rfl, rfl⟩

theorem create_ok_isSome (c : CreateCall) (s : CreateState) (j : Jvm)
    (h : (Jvm.create c s).1 = Try.ok j) :
    (Jvm.create c s).2.inst.isSome = true := by
  by_cases hs : s.inst.isSome
  · simp [Jvm.create, hs] at h
  · by_cases hr : c.nativeResult.1 = JNI_ERR
    · simp [Jvm.create, hs, hr] at h
    · simp [Jvm.create, hs, hr]

theorem create_after_instance (c : CreateCall) (s : CreateState)
    (h : s.inst.isSome = true) :
    Jvm.create c s = (Try.error "Java Virtual Machine already created", s) := by
  simp [Jvm.create, h]

theorem runCreates_after_instance (post : List CreateCall) (s : CreateState)
    (h : s.inst.isSome = true) :
    runCreates post s =
      (List.replicate post.length
        (Try.error "Java Virtual Machine already created"), s) := by
  induction post with
  | nil => rfl
  | cons c rest ih =>
    simp [runCreates, create_after_instance c s h, ih, List.replicate_succ]

/-- C5: once some create call has succeeded, every later create call, for
every argument list and every native response, returns (not throws) the
"Java Virtual Machine already created" error, so at most one creation
succeeds per process. -/
theorem create_singleton (pre : List CreateCall) (c : CreateCall)
    (post : List CreateCall)
    (h : ∃ j, (Jvm.create c (runCreates pre initialCreateState).2).1 = Try.ok j) :
    (runCreates post (Jvm.create c (runCreates pre initialCreateState).2).2).1 =
      List.replicate post.length
        (Try.error "Java Virtual Machine already created") := by
  obtain ⟨j, hj⟩ := h
  rw [runCreates_after_instance post _ (create_ok_isSome _ _ _ hj)]

/-- Concrete run: after the successful creation `cW1`, the later call `cW2`
with different arguments returns the already-created error. -/
theorem create_singleton_witness :
    (runCreates [cW2]
      (Jvm.create cW1 (runCreates [] initialCreateState).2).2).1 =
      List.replicate 1 (Try.error "Java Virtual Machine already created") :=
  create_singleton [] cW1 [cW2] ⟨⟨some 1, 65542, true⟩, by decide⟩

/-- C7 divergence: `Jvm::create` tests only for `JNI_ERR` (-1), so when
`JNI_CreateJavaVM` reports the distinct error code `JNI_EVERSION` (-3) —
leaving the `JavaVM*` handle NULL — create nevertheless returns success,
installing a singleton that wraps no runtime handle, instead of failing with
the "Failed to create JVM!" error the claim requires for every error
result. -/
theorem create_error_code_divergence :
    cBug.nativeResult.1 < 0 ∧ cBug.nativeResult.1 ≠ JNI_OK ∧
    cBug.nativeResult.1 ≠ JNI_ERR ∧
    (Jvm.create cBug initialCreateState).1 = Try.ok ⟨none, 65542, true⟩ ∧
    (Jvm.create cBug initialCreateState).2.inst = some ⟨none, 65542, true⟩ := by
  decide

/-- C6: constructing the guard on an already-attached thread issues only
GetEnv (no attach), leaves the thread state unchanged, and marks the guard
non-owning, so destroying it issues no detach; destroying any non-owning
guard detaches nothing, and a guard comes out owning only when its
construction found the thread detached. -/
theorem env_attach_idempotent (daemon : Bool) (t : ThreadState)
    (h : t.attached = true) :
    ((Env.construct daemon t).1.detach = false ∧
     (Env.construct daemon t).2.2 = [ThreadOp.getEnv] ∧
     (Env.construct daemon t).2.1 = t ∧
     Env.destruct (Env.construct daemon t).1 (Env.construct daemon t).2.1 =
       ((Env.construct daemon t).2.1, [])) ∧
    (∀ (e : Env) (u : ThreadState), e.detach = false →
      Env.destruct e u = (u, [])) ∧
    (∀ (d : Bool) (u : ThreadState),
      (Env.construct d u).1.detach = true → u.attached = false) := by
  obtain ⟨a, eh⟩ := t
  obtain rfl : a = true := h
  refine ⟨⟨rfl, rfl, rfl, rfl⟩, fun e u he => by simp [Env.destruct, he],
    fun d u hd => ?_⟩
  obtain ⟨b, uh⟩ := u
  cases b with
  | false => rfl
  | true => exact Bool.noConfusion hd

/-- Concrete guard acquisition on an attached thread: non-owning, GetEnv
only. -/
theorem env_attach_idempotent_witness :
    (Env.construct false ⟨true, 7⟩).1.detach = false ∧
    (Env.construct false ⟨true, 7⟩).2.2 = [ThreadOp.getEnv] :=
  ⟨(env_attach_idempotent false ⟨true, 7⟩ rfl).1.1,
   (env_attach_idempotent false ⟨true, 7⟩ rfl).1.2.1⟩

theorem gate_never_result {α : Type} (exc : Bool) (p : α × EnvState)
    (h : p.2.pending.isSome = true) : neverResult exc (gateReturn exc p) := by
  obtain ⟨v, s1⟩ := p
  obtain ⟨pend⟩ := s1
  cases pend with
  | none => simp at h
  | some r =>
    cases exc with
    | false =>
      refine ⟨fun w => ?_, fun hf => by simp at hf, fun _ => ?_⟩ <;>
        simp [gateReturn, Jvm.check, neverResult]
    | true =>
      refine ⟨fun w => ?_, fun _ => ⟨⟨some r, ?_⟩, ?_⟩, fun hf => by simp at hf⟩ <;>
        simp [gateReturn, Jvm.check, neverResult]

/-- C2: for every invocation and static-field-read entry point (constructor
invoke, the nine instance-invoke categories, the nine static-invoke
categories, the eight static-field-read categories) and every behaviour of
the native runtime, if the native call leaves a pending exception then the
caller never observes the decoded result: translate mode throws (and the
pending state ends cleared) and abort mode terminates, in each case before
the value would be returned. -/
theorem pending_exception_never_returns_result (jvm : Jvm) (n : Native)
    (recv : Option Nat) (cls : Class) (ctor : Constructor) (f : Field)
    (id args : Nat) (s : EnvState) :
    ((n.newObjectV (n.findClass ctor.clazz) ctor.id args s).2.pending.isSome = true →
      neverResult jvm.exceptions (Jvm.invokeCtor jvm n ctor args s)) ∧
    ((n.callVoidMethodV recv id args s).2.pending.isSome = true →
      neverResult jvm.exceptions (Jvm.invokeVVoid jvm n recv id args s)) ∧
    ((n.callObjectMethodV recv id args s).2.pending.isSome = true →
      neverResult jvm.exceptions (Jvm.invokeVObject jvm n recv id args s)) ∧
    ((n.callBooleanMethodV recv id args s).2.pending.isSome = true →
      neverResult jvm.exceptions (Jvm.invokeVBool jvm n recv id args s)) ∧
    ((n.callCharMethodV recv id args s).2.pending.isSome = true →
      neverResult jvm.exceptions (Jvm.invokeVChar jvm n recv id args s)) ∧
    ((n.callShortMethodV recv id args s).2.pending.isSome = true →
      neverResult jvm.exceptions (Jvm.invokeVShort jvm n recv id args s)) ∧
    ((n.callIntMethodV recv id args s).2.pending.isSome = true →
      neverResult jvm.exceptions (Jvm.invokeVInt jvm n recv id args s)) ∧
    ((n.callLongMethodV recv id args s).2.pending.isSome = true →
      neverResult jvm.exceptions (Jvm.invokeVLong jvm n recv id args s)) ∧
    ((n.callFloatMethodV recv id args s).2.pending.isSome = true →
      neverResult jvm.exceptions (Jvm.invokeVFloat jvm n recv id args s)) ∧
    ((n.callDoubleMethodV recv id args s).2.pending.isSome = true →
      neverResult jvm.exceptions (Jvm.invokeVDouble jvm n recv id args s)) ∧
    ((n.callStaticVoidMethodV (n.findClass cls) id args s).2.pending.isSome = true →
      neverResult jvm.exceptions (Jvm.invokeStaticVVoid jvm n cls id args s)) ∧
    ((n.callStaticObjectMethodV (n.findClass cls) id args s).2.pending.isSome = true →
      neverResult jvm.exceptions (Jvm.invokeStaticVObject jvm n cls id args s)) ∧
    ((n.callStaticBooleanMethodV (n.findClass cls) id args s).2.pending.isSome = true →
      neverResult jvm.exceptions (Jvm.invokeStaticVBool jvm n cls id args s)) ∧
    ((n.callStaticCharMethodV (n.findClass cls) id args s).2.pending.isSome = true →
      neverResult jvm.exceptions (Jvm.invokeStaticVChar jvm n cls id args s)) ∧
    ((n.callStaticShortMethodV (n.findClass cls) id args s).2.pending.isSome = true →
      neverResult jvm.exceptions (Jvm.invokeStaticVShort jvm n cls id args s)) ∧
    ((n.callStaticIntMethodV (n.findClass cls) id args s).2.pending.isSome = true →
      neverResult jvm.exceptions (Jvm.invokeStaticVInt jvm n cls id args s)) ∧
    ((n.callStaticLongMethodV (n.findClass cls) id args s).2.pending.isSome = true →
      neverResult jvm.exceptions (Jvm.invokeStaticVLong jvm n cls id args s)) ∧
    ((n.callStaticFloatMethodV (n.findClass cls) id args s).2.pending.isSome = true →
      neverResult jvm.exceptions (Jvm.invokeStaticVFloat jvm n cls id args s)) ∧
    ((n.callStaticDoubleMethodV (n.findClass cls) id args s).2.pending.isSome = true →
      neverResult jvm.exceptions (Jvm.invokeStaticVDouble jvm n cls id args s)) ∧
    ((n.getStaticObjectField (n.findClass f.clazz) f.id s).2.pending.isSome = true →
      neverResult jvm.exceptions (Jvm.getStaticFieldObject jvm n f s)) ∧
    ((n.getStaticBooleanField (n.findClass f.clazz) f.id s).2.pending.isSome = true →
      neverResult jvm.exceptions (Jvm.getStaticFieldBool jvm n f s)) ∧
    ((n.getStaticCharField (n.findClass f.clazz) f.id s).2.pending.isSome = true →
      neverResult jvm.exceptions (Jvm.getStaticFieldChar jvm n f s)) ∧
    ((n.getStaticShortField (n.findClass f.clazz) f.id s).2.pending.isSome = true →
      neverResult jvm.exceptions (Jvm.getStaticFieldShort jvm n f s)) ∧
    ((n.getStaticIntField (n.findClass f.clazz) f.id s).2.pending.isSome = true →
      neverResult jvm.exceptions (Jvm.getStaticFieldInt jvm n f s)) ∧
    ((n.getStaticLongField (n.findClass f.clazz) f.id s).2.pending.isSome = true →
      neverResult jvm.exceptions (Jvm.getStaticFieldLong jvm n f s)) ∧
    ((n.getStaticFloatField (n.findClass f.clazz) f.id s).2.pending.isSome = true →
      neverResult jvm.exceptions (Jvm.getStaticFieldFloat jvm n f s)) ∧
    ((n.getStaticDoubleField (n.findClass f.clazz) f.id s).2.pending.isSome = true →
      neverResult jvm.exceptions (Jvm.getStaticFieldDouble jvm n f s)) :=
  ⟨fun h => gate_never_result _ _ h, fun h => gate_never_result _ _ h,
   fun h => gate_never_result _ _ h, fun h => gate_never_result _ _ h,
   fun h => gate_never_result _ _ h, fun h => gate_never_result _ _ h,
   fun h => gate_never_result _ _ h, fun h => gate_never_result _ _ h,
   fun h => gate_never_result _ _ h, fun h => gate_never_result _ _ h,
   fun h => gate_never_result _ _ h, fun h => gate_never_result _ _ h,
   fun h => gate_never_result _ _ h, fun h => gate_never_result _ _ h,
   fun h => gate_never_result _ _ h, fun h => gate_never_result _ _ h,
   fun h => gate_never_result _ _ h, fun h => gate_never_result _ _ h,
   fun h => gate_never_result _ _ h, fun h => gate_never_result _ _ h,
   fun h => gate_never_result _ _ h, fun h => gate_never_result _ _ h,
   fun h => gate_never_result _ _ h, fun h => gate_never_result _ _ h,
   fun h => gate_never_result _ _ h, fun h => gate_never_result _ _ h,
   fun h => gate_never_result _ _ h⟩

/-- Concrete runs against a runtime whose every call leaves exception object
5 pending: an instance int invocation in translate mode never yields the
decoded 7, and a constructor invocation in abort mode terminates. -/
theorem pending_exception_never_returns_result_witness :
    neverResult true
      (Jvm.invokeVInt ⟨some 1, 65542, true⟩ throwingNative (some 1) 2 3 ⟨none⟩) ∧
    neverResult false
      (Jvm.invokeCtor ⟨some 1, 65542, false⟩ throwingNative
        ⟨Class.STRING, 4⟩ 0 ⟨none⟩) :=
  ⟨(pending_exception_never_returns_result ⟨some 1, 65542, true⟩ throwingNative
      (some 1) Class.STRING ⟨Class.STRING, 4⟩ ⟨Class.STRING, 4⟩ 2 3
      ⟨none⟩).2.2.2.2.2.2.1 rfl,
   (pending_exception_never_returns_result ⟨some 1, 65542, false⟩ throwingNative
      (some 1) Class.STRING ⟨Class.STRING, 4⟩ ⟨Class.STRING, 4⟩ 4 0
      ⟨none⟩).1 rfl⟩

end Bilingua

